import Mathlib

/-!
Shallow embedding of the smart-goal-planner backend (two Express/Firestore
variants: `server.js` and a second variant file).  The Firestore collections
`users` and `goals` are modelled as association lists keyed by document id;
each route handler becomes a pure function from the request data and the
store to a response and the next store.  Request timestamps
(`new Date().toISOString()`) and Firestore-generated document ids are passed
in as explicit parameters.
-/

namespace SGP

/-- A document of the `users` collection: `{ username, password, role }`. -/
structure UserRec where
  username : String
  password : String
  role : String
deriving DecidableEq

/-- A document of the `goals` collection:
`{ name, targetAmount, savedAmount, category, userId, createdAt, updatedAt }`. -/
structure GoalRec where
  name : String
  targetAmount : Int
  savedAmount : Int
  category : String
  userId : String
  createdAt : String
  updatedAt : String
deriving DecidableEq

/-- The Firestore state: both collections, as id-keyed association lists. -/
structure Store where
  users : List (String × UserRec)
  goals : List (String × GoalRec)
deriving DecidableEq

/-- The object serialised into a token: `{ id, username, role }`
(also the shape of `req.user` after `verifyToken`). -/
structure TokenPayload where
  id : String
  username : String
  role : String
deriving DecidableEq

/-- JavaScript truthiness of an optional string field of a JSON body:
`undefined` and `""` are falsy. -/
def truthyS : Option String → Bool
  | none => false
  | some s => !(s = "")

/-- JavaScript truthiness of an optional numeric field of a JSON body:
`undefined` and `0` are falsy. -/
def truthyN : Option Int → Bool
  | none => false
  | some n => !(n = 0)

/-! ## Token serialisation

`createToken` is
`Buffer.from(JSON.stringify({id, username, role})).toString('base64')`:
JSON-serialise the payload, UTF-8-encode the resulting string, base64 the
bytes.  The gate decodes with
`JSON.parse(Buffer.from(token, 'base64').toString('ascii'))`: base64-decode
to bytes, decode the bytes with Node's `'ascii'` decoding (each byte is
masked to 7 bits), JSON-parse.  Each stage is embedded below. -/

/-- Lower-case hexadecimal digit, as emitted by `JSON.stringify` in
`\u00XX` escapes of control characters. -/
def hexDigit (n : Nat) : Char :=
  if n < 10 then Char.ofNat (48 + n) else Char.ofNat (87 + n)

/-- How a character is serialised by `JSON.stringify` inside a string literal:
`"` and `\` are escaped, the common control characters get two-character
escapes, the remaining control characters get `\u00XX`, and every other
character (ASCII or not) is emitted literally. -/
def escapeChar (c : Char) : List Char :=
  if c.toNat = 34 then [Char.ofNat 92, Char.ofNat 34]
  else if c.toNat = 92 then [Char.ofNat 92, Char.ofNat 92]
  else if c.toNat = 8 then [Char.ofNat 92, 'b']
  else if c.toNat = 9 then [Char.ofNat 92, 't']
  else if c.toNat = 10 then [Char.ofNat 92, 'n']
  else if c.toNat = 12 then [Char.ofNat 92, 'f']
  else if c.toNat = 13 then [Char.ofNat 92, 'r']
  else if c.toNat < 32 then
    [Char.ofNat 92, 'u', '0', '0', hexDigit (c.toNat / 16), hexDigit (c.toNat % 16)]
  else [c]

/-- Serialisation by `JSON.stringify` of a string's characters (body of the literal). -/
def escString (cs : List Char) : List Char := cs.flatMap escapeChar

/-- The literal text between `{` and the opening quote of the `id` value. -/
def jsonPfxId : List Char := String.toList "\x7b\"id\":\""

/-- The literal text between the closing quote of the `id` value and the
opening quote of the `username` value. -/
def jsonPfxUsername : List Char := String.toList ",\"username\":\""

/-- The literal text between the closing quote of the `username` value and
the opening quote of the `role` value. -/
def jsonPfxRole : List Char := String.toList ",\"role\":\""

/-- The closing quote of the `role` value and the final `}`. -/
def jsonSuffix : List Char := String.toList "\"\x7d"

/-- Output of `JSON.stringify({id: u.id, username: u.username, role: u.role})`,
as a character list. -/
def jsonStringifyList (u : TokenPayload) : List Char :=
  jsonPfxId ++ escString u.id.toList ++ [Char.ofNat 34] ++
  jsonPfxUsername ++ escString u.username.toList ++ [Char.ofNat 34] ++
  jsonPfxRole ++ escString u.role.toList ++ jsonSuffix

/-- UTF-8 encoding of one character (what `Buffer.from(string)` does per
code point). -/
def utf8Bytes (c : Char) : List Nat :=
  let n := c.toNat
  if n < 128 then [n]
  else if n < 2048 then [192 + n / 64, 128 + n % 64]
  else if n < 65536 then [224 + n / 4096, 128 + n / 64 % 64, 128 + n % 64]
  else [240 + n / 262144, 128 + n / 4096 % 64, 128 + n / 64 % 64, 128 + n % 64]

/-- UTF-8 encoding of a character list into bytes. -/
def utf8Encode (cs : List Char) : List Nat := cs.flatMap utf8Bytes

/-- The base64 alphabet. -/
def b64Chars : List Char :=
  String.toList "ABCDEFGHIJKLMNOPQRSTUVWXYZabcdefghijklmnopqrstuvwxyz0123456789+/"

/-- The character of a 6-bit value. -/
def b64Enc (n : Nat) : Char := b64Chars.getD n 'A'

/-- The 6-bit value of a base64 character; `none` for `=` and every other
non-alphabet character (which Node's decoder skips). -/
def b64DecChar (c : Char) : Option Nat := b64Chars.findIdx? (fun d => d = c)

/-- Base64-encode a byte list (with `=` padding), as `buf.toString('base64')`. -/
def b64EncodeList : List Nat → List Char
  | [] => []
  | [a] => [b64Enc (a / 4), b64Enc (a % 4 * 16), Char.ofNat 61, Char.ofNat 61]
  | [a, b] => [b64Enc (a / 4), b64Enc (a % 4 * 16 + b / 16), b64Enc (b % 16 * 4), Char.ofNat 61]
  | a :: b :: c :: rest =>
      b64Enc (a / 4) :: b64Enc (a % 4 * 16 + b / 16) :: b64Enc (b % 16 * 4 + c / 64) ::
        b64Enc (c % 64) :: b64EncodeList rest

/-- Reassemble bytes from a list of 6-bit values (trailing partial groups
contribute the bytes their bits complete, as in Node's base64 decoder). -/
def b64Bytes : List Nat → List Nat
  | a :: b :: c :: d :: rest =>
      (a * 4 + b / 16) :: (b % 16 * 16 + c / 4) :: (c % 4 * 64 + d) :: b64Bytes rest
  | [a, b, c] => [a * 4 + b / 16, b % 16 * 16 + c / 4]
  | [a, b] => [a * 4 + b / 16]
  | _ => []

/-- Embedding of `Buffer.from(s, 'base64')`: skip non-alphabet characters (including the
padding), then reassemble bytes. -/
def b64DecodeList (cs : List Char) : List Nat := b64Bytes (cs.filterMap b64DecChar)

/-- Embedding of Node's `buf.toString('ascii')`: every byte is masked to 7 bits and read
as a character. -/
def asciiDecode (bs : List Nat) : List Char := bs.map (fun b => Char.ofNat (b % 128))

/-- Embedding of `createToken`: `Buffer.from(JSON.stringify({id: user.id, username:
user.username, role: user.role})).toString('base64')`. -/
def createToken (u : TokenPayload) : String :=
  String.mk (b64EncodeList (utf8Encode (jsonStringifyList u)))

/-- Value of a hexadecimal digit character, for `\uXXXX` escapes. -/
def hexVal (c : Char) : Option Nat :=
  if 48 ≤ c.toNat ∧ c.toNat ≤ 57 then some (c.toNat - 48)
  else if 97 ≤ c.toNat ∧ c.toNat ≤ 102 then some (c.toNat - 87)
  else if 65 ≤ c.toNat ∧ c.toNat ≤ 70 then some (c.toNat - 55)
  else none

/-- JSON single-character escapes recognised by `JSON.parse`. -/
def unescape (c : Char) : Option Char :=
  if c.toNat = 34 then some (Char.ofNat 34)
  else if c.toNat = 92 then some (Char.ofNat 92)
  else if c.toNat = 47 then some (Char.ofNat 47)
  else if c = 'b' then some (Char.ofNat 8)
  else if c = 'f' then some (Char.ofNat 12)
  else if c = 'n' then some (Char.ofNat 10)
  else if c = 'r' then some (Char.ofNat 13)
  else if c = 't' then some (Char.ofNat 9)
  else none

/-- Parse the body of a JSON string literal (the opening quote already
consumed) up to and including its closing quote, returning the decoded
characters and the rest of the input; `none` on a malformed literal, where
`JSON.parse` throws. -/
def parseJsonStr : List Char → Option (List Char × List Char)
  | [] => none
  | c :: rest =>
    if c.toNat = 34 then some ([], rest)
    else if c.toNat = 92 then
      match rest with
      | [] => none
      | e :: rest2 =>
        if e = 'u' then
          match rest2 with
          | h1 :: h2 :: h3 :: h4 :: rest3 =>
            match hexVal h1, hexVal h2, hexVal h3, hexVal h4 with
            | some a, some b, some c2, some d =>
              match parseJsonStr rest3 with
              | some (s, r) => some (Char.ofNat (a * 4096 + b * 256 + c2 * 16 + d) :: s, r)
              | none => none
            | _, _, _, _ => none
          | _ => none
        else
          match unescape e with
          | some u =>
            match parseJsonStr rest2 with
            | some (s, r) => some (u :: s, r)
            | none => none
          | none => none
    else
      match parseJsonStr rest with
      | some (s, r) => some (c :: s, r)
      | none => none

/-- Consume an expected literal chunk of the serialised object. -/
def stripChunk : List Char → List Char → Option (List Char)
  | [], cs => some cs
  | p :: ps, c :: cs => if c = p then stripChunk ps cs else none
  | _ :: _, [] => none

/-- Embedding of `JSON.parse` restricted to the grammar `JSON.stringify` produces for a
`{id, username, role}` object (the only shape the gate ever parses):
`none` where `JSON.parse` would throw or yield a different shape. -/
def parsePayload (cs : List Char) : Option TokenPayload := do
  let r1 ← stripChunk jsonPfxId cs
  let (idCs, r2) ← parseJsonStr r1
  let r3 ← stripChunk jsonPfxUsername r2
  let (unCs, r4) ← parseJsonStr r3
  let r5 ← stripChunk jsonPfxRole r4
  let (roCs, r6) ← parseJsonStr r5
  let r7 ← stripChunk [Char.ofNat 125] r6
  if r7 = [] then some ⟨String.mk idCs, String.mk unCs, String.mk roCs⟩ else none

/-- The decoding performed inside `verifyToken`:
`JSON.parse(Buffer.from(token, 'base64').toString('ascii'))`, as an
`Option` (`none` where `JSON.parse` throws). -/
def decodeToken (tok : String) : Option TokenPayload :=
  parsePayload (asciiDecode (b64DecodeList tok.toList))

/-! ## Route handlers -/

/-- Response bodies produced by the handlers (only the shapes the claims
inspect are distinguished; plain `send` text is `msg`). -/
inductive Body where
  | msg (s : String)
  | loginOk (message token : String)
  | verifyOk (message : String) (user : TokenPayload)
  | goalsList (gs : List (String × GoalRec))
  | goalCreated (id : String) (g : GoalRec)
  | usersList (us : List TokenPayload) (totalUsers : Nat)
deriving DecidableEq

/-- An HTTP response: status code and body. -/
structure Response where
  status : Nat
  body : Body
deriving DecidableEq

/-- JavaScript's `String.prototype.split(' ')`: split on every single
space character, keeping empty segments. -/
def jsSplitSpace (cs : List Char) : List (List Char) :=
  cs.foldr
    (fun c acc => if c.toNat = 32 then [] :: acc else (c :: acc.headD []) :: acc.drop 1)
    [[]]

/-- The `verifyToken` middleware: missing header is 401; the token is
`authHeader.split(' ')[1]` (an absent segment makes `Buffer.from` throw,
caught as 401); a token `JSON.parse` cannot decode is 401; a decoded id
with no user document is 401; otherwise the decoded payload becomes
`req.user`. -/
def verifyToken (store : Store) (authHeader : Option String) :
    Except Response TokenPayload :=
  match authHeader with
  | none => .error ⟨401, .msg "No token provided"⟩
  | some h =>
    match ((jsSplitSpace h.toList).map String.mk)[1]? with
    | none => .error ⟨401, .msg "Invalid token"⟩
    | some tok =>
      match decodeToken tok with
      | none => .error ⟨401, .msg "Invalid token"⟩
      | some decoded =>
        if (store.users.lookup decoded.id).isSome then .ok decoded
        else .error ⟨401, .msg "Invalid token: User does not exist"⟩

/-- The `checkAdmin` middleware's test: `req.user.role === 'admin'`. -/
def checkAdmin (u : TokenPayload) : Bool := u.role = "admin"

/-- Route wiring of the `verifyToken` middleware in front of a handler. -/
def withAuth (store : Store) (authHeader : Option String)
    (k : TokenPayload → Response × Store) : Response × Store :=
  match verifyToken store authHeader with
  | .error r => (r, store)
  | .ok u => k u

/-- Route wiring of the `checkAdmin` middleware in front of a handler. -/
def withAdmin (store : Store) (u : TokenPayload) (k : Response × Store) :
    Response × Store :=
  if checkAdmin u then k
  else (⟨403, .msg "Forbidden: Insufficient permissions"⟩, store)

/-- Default of the registration role field: `role || 'user'`. -/
def roleOrUser : Option String → String
  | none => "user"
  | some r => if r = "" then "user" else r

/-- POST `/register`: 400 on a falsy username or password, 409 when a user
document with that username exists, otherwise add
`{username, password, role: role || 'user'}` under a fresh id. -/
def registerH (newId : String) (store : Store)
    (username password role : Option String) : Response × Store :=
  if !(truthyS username && truthyS password) then
    (⟨400, .msg "Username and password are required."⟩, store)
  else
    let uname := username.getD ""
    if store.users.any (fun e => e.2.username = uname) then
      (⟨409, .msg "Username already exists."⟩, store)
    else
      (⟨201, .msg "User registered successfully."⟩,
       { store with
         users := store.users ++ [(newId, ⟨uname, password.getD "", roleOrUser role⟩)] })

/-- POST `/login`: query for the first user document whose username and
password both match; 401 when none does, otherwise a token for that
document.  A missing body field makes the Firestore query throw (500). -/
def loginH (store : Store) (username password : Option String) :
    Response × Store :=
  match username, password with
  | some uname, some pw =>
    match store.users.find? (fun e => e.2.username = uname && e.2.password = pw) with
    | none => (⟨401, .msg "Invalid credentials"⟩, store)
    | some e =>
      (⟨200, .loginOk "Login successful" (createToken ⟨e.1, e.2.username, e.2.role⟩)⟩, store)
  | _, _ => (⟨500, .msg "Server error during login."⟩, store)

/-- GET `/users` (admin): every user as `{id, username, role}` plus the
count. -/
def getUsersH (store : Store) : Response × Store :=
  (⟨200, .usersList (store.users.map (fun e => ⟨e.1, e.2.username, e.2.role⟩))
      store.users.length⟩, store)

/-- First step of DELETE `/users/:id`: batch-delete every goal whose
`userId` is the target id. -/
def removeUserGoals (store : Store) (uid : String) : Store :=
  { store with goals := store.goals.filter (fun g => !(g.2.userId = uid)) }

/-- Second step of DELETE `/users/:id`: delete the user document itself. -/
def removeUserDoc (store : Store) (uid : String) : Store :=
  { store with users := store.users.filter (fun e => !(e.1 = uid)) }

/-- DELETE `/users/:id` (admin): the goals batch-delete runs first, then
the user-document delete. -/
def deleteUserH (store : Store) (uid : String) : Response × Store :=
  (⟨200, .msg "User and associated goals deleted successfully."⟩,
   removeUserDoc (removeUserGoals store uid) uid)

/-- POST `/goals`: 400 when any of the four body fields is falsy, otherwise
add the goal under a fresh id with `userId := req.user.id` and both
timestamps set to now. -/
def createGoalH (newId now : String) (store : Store) (uid : String)
    (name : Option String) (targetAmount savedAmount : Option Int)
    (category : Option String) : Response × Store :=
  if !(truthyS name && truthyN targetAmount && truthyN savedAmount && truthyS category) then
    (⟨400, .msg "All goal fields are required."⟩, store)
  else
    let g : GoalRec :=
      ⟨name.getD "", targetAmount.getD 0, savedAmount.getD 0, category.getD "",
       uid, now, now⟩
    (⟨201, .goalCreated newId g⟩, { store with goals := store.goals ++ [(newId, g)] })

/-- The query of GET `/goals` in `server.js`: only the goals whose `userId`
matches the caller's id. -/
def goalsFor (store : Store) (uid : String) : List (String × GoalRec) :=
  store.goals.filter (fun g => g.2.userId = uid)

/-- PUT `/goals/:id`: 403 when the goal is absent or owned by someone else;
otherwise write `{name, targetAmount, savedAmount, category, updatedAt}`
into the document (a missing body field is `undefined`, which Firestore's
`update` rejects, caught as 500 with no write). -/
def updateGoalH (now : String) (store : Store) (uid goalId : String)
    (name : Option String) (targetAmount savedAmount : Option Int)
    (category : Option String) : Response × Store :=
  match store.goals.lookup goalId with
  | none => (⟨403, .msg "Forbidden: You can only update your own goals."⟩, store)
  | some g =>
    if !(g.userId = uid) then
      (⟨403, .msg "Forbidden: You can only update your own goals."⟩, store)
    else
      match name, targetAmount, savedAmount, category with
      | some n, some ta, some sa, some c =>
        let g' : GoalRec :=
          { g with name := n, targetAmount := ta, savedAmount := sa,
                   category := c, updatedAt := now }
        (⟨200, .msg "Goal updated successfully."⟩,
         { store with
           goals := store.goals.map (fun e => if e.1 = goalId then (e.1, g') else e) })
      | _, _, _, _ => (⟨500, .msg "Server error updating goal."⟩, store)

/-- DELETE `/goals/:id`: 403 when the goal is absent or owned by someone
else; otherwise delete the document. -/
def deleteGoalH (store : Store) (uid goalId : String) : Response × Store :=
  match store.goals.lookup goalId with
  | none => (⟨403, .msg "Forbidden: You can only delete your own goals."⟩, store)
  | some g =>
    if !(g.userId = uid) then
      (⟨403, .msg "Forbidden: You can only delete your own goals."⟩, store)
    else
      (⟨200, .msg "Goal deleted successfully."⟩,
       { store with goals := store.goals.filter (fun e => !(e.1 = goalId)) })

/-- The routes of `server.js`, with their request bodies. -/
inductive Route where
  | register (username password role : Option String)
  | login (username password : Option String)
  | verify
  | getUsers
  | deleteUser (uid : String)
  | getGoals
  | createGoal (name : Option String) (targetAmount savedAmount : Option Int)
      (category : Option String)
  | updateGoal (goalId : String) (name : Option String)
      (targetAmount savedAmount : Option Int) (category : Option String)
  | deleteGoal (goalId : String)

/-- Whether the route is wired behind the `verifyToken` middleware
(everything except `/register` and `/login`). -/
def isGuarded : Route → Bool
  | .register .. => false
  | .login .. => false
  | _ => true

/-- The request dispatcher of `server.js`: each route with exactly the
middleware chain the source wires in front of its handler. -/
def handle (newId now : String) (store : Store) (auth : Option String) :
    Route → Response × Store
  | .register u p r => registerH newId store u p r
  | .login u p => loginH store u p
  | .verify => withAuth store auth fun u => (⟨200, .verifyOk "Token is valid" u⟩, store)
  | .getUsers => withAuth store auth fun u => withAdmin store u (getUsersH store)
  | .deleteUser uid => withAuth store auth fun u => withAdmin store u (deleteUserH store uid)
  | .getGoals => withAuth store auth fun u => (⟨200, .goalsList (goalsFor store u.id)⟩, store)
  | .createGoal n ta sa c => withAuth store auth fun u => createGoalH newId now store u.id n ta sa c
  | .updateGoal gid n ta sa c => withAuth store auth fun u => updateGoalH now store u.id gid n ta sa c
  | .deleteGoal gid => withAuth store auth fun u => deleteGoalH store u.id gid

/-- GET `/goals` of the second variant file: behind `verifyToken`, but the
query is `db.collection('goals').get()` — every goal document, with no
`userId` filter. -/
def getGoalsV0 (store : Store) (auth : Option String) : Response × Store :=
  withAuth store auth fun _ => (⟨200, .goalsList store.goals⟩, store)

/-! ## Helper lemmas: base64 round trip -/

theorem b64Enc_dec : ∀ n : Nat, n < 64 → b64DecChar (b64Enc n) = some n := by
  decide

theorem b64DecChar_pad : b64DecChar (Char.ofNat 61) = none := by decide

theorem b64_roundtrip : ∀ bs : List Nat, (∀ b ∈ bs, b < 256) →
    b64DecodeList (b64EncodeList bs) = bs
  | [], _ => by simp [b64DecodeList, b64EncodeList, b64Bytes]
  | [a], h => by
    have ha : a < 256 := h a (by simp)
    have h1 : a / 4 < 64 := by omega
    have h2 : a % 4 * 16 < 64 := by omega
    simp only [b64DecodeList, b64EncodeList, List.filterMap_cons,
      b64Enc_dec _ h1, b64Enc_dec _ h2, b64DecChar_pad, List.filterMap_nil,
      b64Bytes]
    simp only [List.cons.injEq, and_true]
    omega
  | [a, b], h => by
    have ha : a < 256 := h a (by simp)
    have hb : b < 256 := h b (by simp)
    have h1 : a / 4 < 64 := by omega
    have h2 : a % 4 * 16 + b / 16 < 64 := by omega
    have h3 : b % 16 * 4 < 64 := by omega
    simp only [b64DecodeList, b64EncodeList, List.filterMap_cons,
      b64Enc_dec _ h1, b64Enc_dec _ h2, b64Enc_dec _ h3, b64DecChar_pad,
      List.filterMap_nil, b64Bytes]
    simp only [List.cons.injEq, and_true]
    omega
  | a :: b :: c :: rest, h => by
    have ha : a < 256 := h a (by simp)
    have hb : b < 256 := h b (by simp)
    have hc : c < 256 := h c (by simp)
    have h1 : a / 4 < 64 := by omega
    have h2 : a % 4 * 16 + b / 16 < 64 := by omega
    have h3 : b % 16 * 4 + c / 64 < 64 := by omega
    have h4 : c % 64 < 64 := by omega
    have ih := b64_roundtrip rest (fun x hx => h x (by simp [hx]))
    simp only [b64DecodeList, b64EncodeList, List.filterMap_cons,
      b64Enc_dec _ h1, b64Enc_dec _ h2, b64Enc_dec _ h3, b64Enc_dec _ h4,
      b64Bytes, List.cons.injEq] at ih ⊢
    exact ⟨by omega, by omega, by omega, ih⟩

/-! ## Helper lemmas: UTF-8, ascii decoding and JSON escaping on ASCII text -/

theorem utf8Bytes_ascii (c : Char) (h : c.toNat < 128) : utf8Bytes c = [c.toNat] := by
  simp [utf8Bytes, h]

theorem utf8Encode_ascii (cs : List Char) (h : ∀ c ∈ cs, c.toNat < 128) :
    utf8Encode cs = cs.map Char.toNat := by
  induction cs with
  | nil => rfl
  | cons c cs ih =>
    simp only [utf8Encode, List.flatMap_cons, List.map_cons,
      utf8Bytes_ascii c (h c (by simp))]
    simpa [utf8Encode] using ih (fun d hd => h d (by simp [hd]))

theorem asciiDecode_map_toNat (cs : List Char) (h : ∀ c ∈ cs, c.toNat < 128) :
    asciiDecode (cs.map Char.toNat) = cs := by
  induction cs with
  | nil => rfl
  | cons c cs ih =>
    have hc : c.toNat < 128 := h c (by simp)
    simp only [asciiDecode, List.map_cons, List.map_map] at ih ⊢
    rw [Nat.mod_eq_of_lt hc, Char.ofNat_toNat]
    exact congrArg (c :: ·) (ih (fun d hd => h d (by simp [hd])))

theorem hexDigit_ascii : ∀ n : Nat, n < 16 → (hexDigit n).toNat < 128 := by decide

theorem escapeChar_ascii (c : Char) (h : c.toNat < 128) :
    ∀ d ∈ escapeChar c, d.toNat < 128 := by
  intro d hd
  unfold escapeChar at hd
  split_ifs at hd with h1 h2 h3 h4 h5 h6 h7 h8
  all_goals simp only [List.mem_cons, List.mem_singleton, List.not_mem_nil,
    or_false] at hd
  · rcases hd with rfl | rfl <;> decide
  · rcases hd with rfl | rfl <;> decide
  · rcases hd with rfl | rfl <;> decide
  · rcases hd with rfl | rfl <;> decide
  · rcases hd with rfl | rfl <;> decide
  · rcases hd with rfl | rfl <;> decide
  · rcases hd with rfl | rfl <;> decide
  · rcases hd with rfl | rfl | rfl | rfl | rfl | rfl
    · decide
    · decide
    · decide
    · decide
    · exact hexDigit_ascii _ (by omega)
    · exact hexDigit_ascii _ (by omega)
  · rcases hd with rfl; exact h

theorem escString_ascii (cs : List Char) (h : ∀ c ∈ cs, c.toNat < 128) :
    ∀ d ∈ escString cs, d.toNat < 128 := by
  intro d hd
  simp only [escString, List.mem_flatMap] at hd
  obtain ⟨c, hc, hdc⟩ := hd
  exact escapeChar_ascii c (h c hc) d hdc

theorem jsonStringify_ascii (u : TokenPayload)
    (hid : ∀ c ∈ u.id.toList, c.toNat < 128)
    (hun : ∀ c ∈ u.username.toList, c.toNat < 128)
    (hro : ∀ c ∈ u.role.toList, c.toNat < 128) :
    ∀ c ∈ jsonStringifyList u, c.toNat < 128 := by
  intro c hc
  simp only [jsonStringifyList, List.mem_append, List.mem_singleton] at hc
  rcases hc with ((((((((hc | hc) | rfl) | hc) | hc) | rfl) | hc) | hc) | hc)
  · revert hc; revert c; decide
  · exact escString_ascii _ hid c hc
  · decide
  · revert hc; revert c; decide
  · exact escString_ascii _ hun c hc
  · decide
  · revert hc; revert c; decide
  · exact escString_ascii _ hro c hc
  · revert hc; revert c; decide

/-! ## Helper lemmas: JSON parse inverts JSON stringify -/

theorem hexVal_hexDigit : ∀ n : Nat, n < 16 → hexVal (hexDigit n) = some n := by
  decide

theorem parse_quote (r : List Char) : parseJsonStr (Char.ofNat 34 :: r) = some ([], r) := by
  rw [parseJsonStr.eq_def]
  simp +decide

theorem parse_ord (c : Char) (r : List Char) (h1 : ¬c.toNat = 34) (h2 : ¬c.toNat = 92) :
    parseJsonStr (c :: r) = Option.map (fun p => (c :: p.1, p.2)) (parseJsonStr r) := by
  rw [parseJsonStr.eq_def]
  simp only [h1, h2, if_false]
  cases parseJsonStr r with
  | none => simp
  | some p => cases p; simp

theorem parse_esc (e c2 : Char) (r : List Char) (he : unescape e = some c2) (hu : ¬e = 'u') :
    parseJsonStr (Char.ofNat 92 :: e :: r) =
      Option.map (fun p => (c2 :: p.1, p.2)) (parseJsonStr r) := by
  rw [parseJsonStr.eq_def]
  simp only [hu, if_false, he]
  simp +decide only
  cases parseJsonStr r with
  | none => simp
  | some p => cases p; simp

theorem parse_u (h1 h2 h3 h4 : Char) (r : List Char) (a b c2 d : Nat)
    (hv1 : hexVal h1 = some a) (hv2 : hexVal h2 = some b)
    (hv3 : hexVal h3 = some c2) (hv4 : hexVal h4 = some d) :
    parseJsonStr (Char.ofNat 92 :: 'u' :: h1 :: h2 :: h3 :: h4 :: r) =
      Option.map (fun p => (Char.ofNat (a * 4096 + b * 256 + c2 * 16 + d) :: p.1, p.2))
        (parseJsonStr r) := by
  rw [parseJsonStr.eq_def]
  simp +decide only [hv1, hv2, hv3, hv4]
  cases parseJsonStr r with
  | none => simp
  | some p => cases p; simp

theorem parseJsonStr_escString (s : List Char) :
    ∀ rest : List Char,
      parseJsonStr (escString s ++ Char.ofNat 34 :: rest) = some (s, rest) := by
  induction s with
  | nil =>
    intro rest
    simpa [escString] using parse_quote rest
  | cons c cs ih =>
    intro rest
    simp only [escString, List.flatMap_cons, List.append_assoc]
    have ihr := ih rest
    simp only [escString] at ihr
    by_cases hc1 : c.toNat = 34
    · have he : escapeChar c = [Char.ofNat 92, Char.ofNat 34] := by
        unfold escapeChar; rw [if_pos hc1]
      have hcc : Char.ofNat 34 = c := by rw [← hc1, Char.ofNat_toNat]
      rw [he]
      simp only [List.cons_append, List.nil_append]
      rw [parse_esc (Char.ofNat 34) (Char.ofNat 34) _ (by decide) (by decide), ihr, hcc]
      rfl
    by_cases hc2 : c.toNat = 92
    · have he : escapeChar c = [Char.ofNat 92, Char.ofNat 92] := by
        unfold escapeChar; rw [if_neg hc1, if_pos hc2]
      have hcc : Char.ofNat 92 = c := by rw [← hc2, Char.ofNat_toNat]
      rw [he]
      simp only [List.cons_append, List.nil_append]
      rw [parse_esc (Char.ofNat 92) (Char.ofNat 92) _ (by decide) (by decide), ihr, hcc]
      rfl
    by_cases hc3 : c.toNat = 8
    · have he : escapeChar c = [Char.ofNat 92, 'b'] := by
        unfold escapeChar; rw [if_neg hc1, if_neg hc2, if_pos hc3]
      have hcc : Char.ofNat 8 = c := by rw [← hc3, Char.ofNat_toNat]
      rw [he]
      simp only [List.cons_append, List.nil_append]
      rw [parse_esc 'b' (Char.ofNat 8) _ (by decide) (by decide), ihr, hcc]
      rfl
    by_cases hc4 : c.toNat = 9
    · have he : escapeChar c = [Char.ofNat 92, 't'] := by
        unfold escapeChar; rw [if_neg hc1, if_neg hc2, if_neg hc3, if_pos hc4]
      have hcc : Char.ofNat 9 = c := by rw [← hc4, Char.ofNat_toNat]
      rw [he]
      simp only [List.cons_append, List.nil_append]
      rw [parse_esc 't' (Char.ofNat 9) _ (by decide) (by decide), ihr, hcc]
      rfl
    by_cases hc5 : c.toNat = 10
    · have he : escapeChar c = [Char.ofNat 92, 'n'] := by
        unfold escapeChar; rw [if_neg hc1, if_neg hc2, if_neg hc3, if_neg hc4, if_pos hc5]
      have hcc : Char.ofNat 10 = c := by rw [← hc5, Char.ofNat_toNat]
      rw [he]
      simp only [List.cons_append, List.nil_append]
      rw [parse_esc 'n' (Char.ofNat 10) _ (by decide) (by decide), ihr, hcc]
      rfl
    by_cases hc6 : c.toNat = 12
    · have he : escapeChar c = [Char.ofNat 92, 'f'] := by
        unfold escapeChar; rw [if_neg hc1, if_neg hc2, if_neg hc3, if_neg hc4, if_neg hc5, if_pos hc6]
      have hcc : Char.ofNat 12 = c := by rw [← hc6, Char.ofNat_toNat]
      rw [he]
      simp only [List.cons_append, List.nil_append]
      rw [parse_esc 'f' (Char.ofNat 12) _ (by decide) (by decide), ihr, hcc]
      rfl
    by_cases hc7 : c.toNat = 13
    · have he : escapeChar c = [Char.ofNat 92, 'r'] := by
        unfold escapeChar; rw [if_neg hc1, if_neg hc2, if_neg hc3, if_neg hc4, if_neg hc5, if_neg hc6, if_pos hc7]
      have hcc : Char.ofNat 13 = c := by rw [← hc7, Char.ofNat_toNat]
      rw [he]
      simp only [List.cons_append, List.nil_append]
      rw [parse_esc 'r' (Char.ofNat 13) _ (by decide) (by decide), ihr, hcc]
      rfl
    by_cases hc8 : c.toNat < 32
    · have he : escapeChar c =
          [Char.ofNat 92, 'u', '0', '0', hexDigit (c.toNat / 16), hexDigit (c.toNat % 16)] := by
        unfold escapeChar
        rw [if_neg hc1, if_neg hc2, if_neg hc3, if_neg hc4, if_neg hc5, if_neg hc6,
          if_neg hc7, if_pos hc8]
      have hv3 : hexVal (hexDigit (c.toNat / 16)) = some (c.toNat / 16) :=
        hexVal_hexDigit _ (by omega)
      have hv4 : hexVal (hexDigit (c.toNat % 16)) = some (c.toNat % 16) :=
        hexVal_hexDigit _ (by omega)
      have hcc : Char.ofNat (0 * 4096 + 0 * 256 + c.toNat / 16 * 16 + c.toNat % 16) = c := by
        have harith : 0 * 4096 + 0 * 256 + c.toNat / 16 * 16 + c.toNat % 16 = c.toNat := by
          omega
        rw [harith, Char.ofNat_toNat]
      rw [he]
      simp only [List.cons_append, List.nil_append]
      rw [parse_u '0' '0' _ _ _ 0 0 _ _ (by decide) (by decide) hv3 hv4, ihr, hcc]
      rfl
    have he : escapeChar c = [c] := by
      unfold escapeChar
      rw [if_neg hc1, if_neg hc2, if_neg hc3, if_neg hc4, if_neg hc5, if_neg hc6,
        if_neg hc7, if_neg hc8]
    rw [he]
    simp only [List.singleton_append]
    rw [parse_ord c _ hc1 hc2, ihr]
    rfl

theorem stripChunk_append (p : List Char) : ∀ cs, stripChunk p (p ++ cs) = some cs := by
  induction p with
  | nil => intro cs; rfl
  | cons x xs ih => intro cs; simp [stripChunk, ih]

theorem parsePayload_stringify (u : TokenPayload) :
    parsePayload (jsonStringifyList u) = some u := by
  have hsuf : jsonSuffix = Char.ofNat 34 :: [Char.ofNat 125] := by decide
  unfold parsePayload jsonStringifyList
  rw [hsuf]
  simp only [List.append_assoc, List.cons_append, List.singleton_append, List.nil_append]
  rw [stripChunk_append]
  simp only [Option.bind_eq_bind, Option.some_bind]
  rw [parseJsonStr_escString]
  simp only [Option.some_bind]
  rw [stripChunk_append]
  simp only [Option.some_bind]
  rw [parseJsonStr_escString]
  simp only [Option.some_bind]
  rw [stripChunk_append]
  simp only [Option.some_bind]
  rw [parseJsonStr_escString]
  simp only [Option.some_bind]
  simp [stripChunk]

/-- C5 (amended): token creation followed by the gate's decoding is a
round trip for every `{id, username, role}` payload whose three fields
consist solely of ASCII characters (code points below 128).  The amendment
is forced: `Buffer.from(bytes).toString('ascii')` masks every byte to
7 bits, so any non-ASCII character is mangled before `JSON.parse` runs —
see the counterexample. -/
theorem token_roundtrip_ascii (u : TokenPayload)
    (h : ∀ c ∈ u.id.toList ++ u.username.toList ++ u.role.toList, c.toNat < 128) :
    decodeToken (createToken u) = some u := by
  have hall : ∀ c ∈ jsonStringifyList u, c.toNat < 128 :=
    jsonStringify_ascii u
      (fun c hc => h c (by simp only [List.mem_append]; exact Or.inl (Or.inl hc)))
      (fun c hc => h c (by simp only [List.mem_append]; exact Or.inl (Or.inr hc)))
      (fun c hc => h c (by simp only [List.mem_append]; exact Or.inr hc))
  have henc : utf8Encode (jsonStringifyList u) = (jsonStringifyList u).map Char.toNat :=
    utf8Encode_ascii _ hall
  have hlt : ∀ b ∈ (jsonStringifyList u).map Char.toNat, b < 256 := by
    intro b hb
    simp only [List.mem_map] at hb
    obtain ⟨c, hc, rfl⟩ := hb
    exact Nat.lt_of_lt_of_le (hall c hc) (by norm_num)
  unfold decodeToken createToken
  rw [show (String.mk (b64EncodeList (utf8Encode (jsonStringifyList u)))).toList
        = b64EncodeList (utf8Encode (jsonStringifyList u)) from rfl]
  rw [henc, b64_roundtrip _ hlt, asciiDecode_map_toNat _ hall, parsePayload_stringify]

/-! ## Claim theorems -/

/-- C3: every request to a route guarded by `verifyToken` that carries no
authorization header is answered 401 ("No token provided") and the store is
untouched — the gate rejects before any handler or data access runs. -/
theorem guarded_route_missing_header_401 (newId now : String) (store : Store)
    (r : Route) (hr : isGuarded r = true) :
    handle newId now store none r = (⟨401, .msg "No token provided"⟩, store) := by
  cases r <;> simp_all [handle, withAuth, verifyToken, isGuarded]

/-- Witness for the C3 theorem at the goals-list route and an empty store. -/
theorem guarded_route_missing_header_401_witness :
    isGuarded .getGoals = true ∧
      handle "n1" "t1" ⟨[], []⟩ none .getGoals =
        (⟨401, .msg "No token provided"⟩, ⟨[], []⟩) :=
  ⟨rfl, guarded_route_missing_header_401 "n1" "t1" ⟨[], []⟩ .getGoals rfl⟩

/-- C4: every request to a guarded route whose bearer token decodes to a
payload whose id has no user document left in the store is answered 401
("Invalid token: User does not exist") with the store untouched; the
downstream handler never runs. -/
theorem guarded_route_stale_token_401 (newId now : String) (store : Store)
    (r : Route) (hr : isGuarded r = true) (h tok : String) (p : TokenPayload)
    (htok : ((jsSplitSpace h.toList).map String.mk)[1]? = some tok)
    (hdec : decodeToken tok = some p)
    (habs : store.users.lookup p.id = none) :
    handle newId now store (some h) r =
      (⟨401, .msg "Invalid token: User does not exist"⟩, store) := by
  have hv : verifyToken store (some h) =
      .error ⟨401, .msg "Invalid token: User does not exist"⟩ := by
    unfold verifyToken
    dsimp only
    rw [htok]
    dsimp only
    rw [hdec]
    dsimp only
    rw [habs]
    rfl
  cases r <;> simp_all [handle, withAuth, isGuarded]

/-- Witness for the C4 theorem: a token of a deleted user against the empty
store, at the goals-list route. -/
theorem guarded_route_stale_token_401_witness :
    ((jsSplitSpace ("Bearer " ++ createToken ⟨"u1", "alice", "user"⟩).toList).map
        String.mk)[1]? = some (createToken ⟨"u1", "alice", "user"⟩) ∧
      decodeToken (createToken ⟨"u1", "alice", "user"⟩) = some ⟨"u1", "alice", "user"⟩ ∧
      (⟨[], []⟩ : Store).users.lookup "u1" = none ∧
      handle "n1" "t1" ⟨[], []⟩ (some ("Bearer " ++ createToken ⟨"u1", "alice", "user"⟩))
          .getGoals =
        (⟨401, .msg "Invalid token: User does not exist"⟩, ⟨[], []⟩) :=
  ⟨by decide, by decide, rfl,
   guarded_route_stale_token_401 "n1" "t1" ⟨[], []⟩ .getGoals rfl
     ("Bearer " ++ createToken ⟨"u1", "alice", "user"⟩)
     (createToken ⟨"u1", "alice", "user"⟩)
     ⟨"u1", "alice", "user"⟩ (by decide) (by decide) rfl⟩

/-- C2: a goal mutation (PUT or DELETE `/goals/:id`) by an authenticated
caller who does not own the target — the goal is absent, or its `userId`
differs from the caller's id — is answered 403 (which satisfies the
claimed "403 or 404") and leaves the store, in particular the stored goal
record, unchanged. -/
theorem goal_mutation_not_owner_403 (newId now : String) (store : Store)
    (auth : Option String) (p : TokenPayload) (gid : String)
    (hv : verifyToken store auth = .ok p)
    (hown : ∀ g, store.goals.lookup gid = some g → ¬(g.userId = p.id))
    (n : Option String) (ta sa : Option Int) (c : Option String) :
    handle newId now store auth (.updateGoal gid n ta sa c) =
        (⟨403, .msg "Forbidden: You can only update your own goals."⟩, store) ∧
      handle newId now store auth (.deleteGoal gid) =
        (⟨403, .msg "Forbidden: You can only delete your own goals."⟩, store) := by
  constructor
  · simp only [handle, withAuth, hv]
    unfold updateGoalH
    cases hg : store.goals.lookup gid with
    | none => rfl
    | some g => simp [hown g hg]
  · simp only [handle, withAuth, hv]
    unfold deleteGoalH
    cases hg : store.goals.lookup gid with
    | none => rfl
    | some g => simp [hown g hg]

/-- Witness for the C2 theorem: caller `u1` targeting a goal of `u2`. -/
theorem goal_mutation_not_owner_403_witness :
    verifyToken ⟨[("u1", ⟨"alice", "pw1", "user"⟩)],
        [("g2", ⟨"House", 500, 50, "Home", "u2", "t0", "t0"⟩)]⟩
        (some ("Bearer " ++ createToken ⟨"u1", "alice", "user"⟩)) =
      .ok ⟨"u1", "alice", "user"⟩ ∧
    handle "n1" "t1" ⟨[("u1", ⟨"alice", "pw1", "user"⟩)],
        [("g2", ⟨"House", 500, 50, "Home", "u2", "t0", "t0"⟩)]⟩
        (some ("Bearer " ++ createToken ⟨"u1", "alice", "user"⟩))
        (.updateGoal "g2" (some "X") (some 1) (some 1) (some "C")) =
      (⟨403, .msg "Forbidden: You can only update your own goals."⟩,
       ⟨[("u1", ⟨"alice", "pw1", "user"⟩)],
        [("g2", ⟨"House", 500, 50, "Home", "u2", "t0", "t0"⟩)]⟩) :=
  ⟨rfl,
   (goal_mutation_not_owner_403 "n1" "t1"
     ⟨[("u1", ⟨"alice", "pw1", "user"⟩)],
      [("g2", ⟨"House", 500, 50, "Home", "u2", "t0", "t0"⟩)]⟩
     (some ("Bearer " ++ createToken ⟨"u1", "alice", "user"⟩))
     ⟨"u1", "alice", "user"⟩ "g2" rfl
     (fun g hg => by
       rw [show (⟨[("u1", ⟨"alice", "pw1", "user"⟩)],
            [("g2", ⟨"House", 500, 50, "Home", "u2", "t0", "t0"⟩)]⟩ : Store).goals.lookup
            "g2" = some ⟨"House", 500, 50, "Home", "u2", "t0", "t0"⟩ from rfl] at hg
       cases hg
       decide)
     (some "X") (some 1) (some 1) (some "C")).1⟩

/-- Witness for the C5 theorem at an all-ASCII payload. -/
theorem token_roundtrip_ascii_witness :
    (∀ c ∈ ("u1" : String).toList ++ ("alice" : String).toList ++
        ("user" : String).toList, c.toNat < 128) ∧
      decodeToken (createToken ⟨"u1", "alice", "user"⟩) =
        some ⟨"u1", "alice", "user"⟩ :=
  ⟨by decide, token_roundtrip_ascii ⟨"u1", "alice", "user"⟩ (by decide)⟩

/-- C5 counterexample: for the payload with the non-ASCII username "é"
(code point 233, UTF-8 bytes 195 and 169), the gate's decoding of the
created token yields the mangled username "C)" (bytes 67 and 41 after the
7-bit mask), not the original record — the round trip fails as soon as any
field contains a character outside ASCII. -/
theorem token_roundtrip_counterexample :
    decodeToken (createToken ⟨"u1", "é", "user"⟩) = some ⟨"u1", "C)", "user"⟩ ∧
      ¬(decodeToken (createToken ⟨"u1", "é", "user"⟩) = some ⟨"u1", "é", "user"⟩) := by
  decide

/-- C1 (code bug in the second variant): the variant file's GET `/goals`
runs `db.collection('goals').get()` with no `userId` filter, although its
own comment ("get goals for the authenticated user") and the spec require
caller scoping.  Authenticated as `u1`, the response contains the goal
`g2` owned by `u2`.  (The `server.js` variant's query `goalsFor` does
filter by the caller's id.) -/
theorem getGoalsV0_returns_foreign_goal :
    (getGoalsV0
        ⟨[("u1", ⟨"alice", "pw1", "user"⟩), ("u2", ⟨"bob", "pw2", "user"⟩)],
         [("g1", ⟨"Car", 100, 10, "Vehicle", "u1", "t0", "t0"⟩),
          ("g2", ⟨"House", 500, 50, "Home", "u2", "t0", "t0"⟩)]⟩
        (some ("Bearer " ++ createToken ⟨"u1", "alice", "user"⟩))).1 =
        ⟨200, .goalsList
          [("g1", ⟨"Car", 100, 10, "Vehicle", "u1", "t0", "t0"⟩),
           ("g2", ⟨"House", 500, 50, "Home", "u2", "t0", "t0"⟩)]⟩ ∧
      ("g2", (⟨"House", 500, 50, "Home", "u2", "t0", "t0"⟩ : GoalRec)) ∈
        [("g1", (⟨"Car", 100, 10, "Vehicle", "u1", "t0", "t0"⟩ : GoalRec)),
         ("g2", ⟨"House", 500, 50, "Home", "u2", "t0", "t0"⟩)] ∧
      ¬(("u2" : String) = "u1") := by
  decide

/-- C6: registering a fresh username (a nonempty username with a password
supplied, as a registration requires) returns 201 and appends exactly the
new user document with the defaulted role; a second registration of the
same username against the resulting store returns 409 and changes
nothing. -/
theorem register_twice_201_then_409 (newId1 newId2 : String) (store : Store)
    (uname pw pw2 : String) (role1 role2 : Option String)
    (hu : ¬(uname = "")) (hp : ¬(pw = "")) (hp2 : ¬(pw2 = ""))
    (habs : ∀ e ∈ store.users, ¬(e.2.username = uname)) :
    registerH newId1 store (some uname) (some pw) role1 =
        (⟨201, .msg "User registered successfully."⟩,
         { store with users := store.users ++ [(newId1, ⟨uname, pw, roleOrUser role1⟩)] }) ∧
      registerH newId2
          { store with users := store.users ++ [(newId1, ⟨uname, pw, roleOrUser role1⟩)] }
          (some uname) (some pw2) role2 =
        (⟨409, .msg "Username already exists."⟩,
         { store with users := store.users ++ [(newId1, ⟨uname, pw, roleOrUser role1⟩)] }) := by
  have hany : store.users.any (fun e => e.2.username = uname) = false := by
    simp only [List.any_eq_false, decide_eq_true_eq]
    exact habs
  constructor
  · unfold registerH
    simp [truthyS, hu, hp, hany]
  · unfold registerH
    simp [truthyS, hu, hp2, List.any_append]

/-- Witness for the C6 theorem: registering "alice" twice into the empty
store. -/
theorem register_twice_201_then_409_witness :
    ¬(("alice" : String) = "") ∧ ¬(("p1" : String) = "") ∧ ¬(("p2" : String) = "") ∧
      (∀ e ∈ (⟨[], []⟩ : Store).users, ¬(e.2.username = "alice")) ∧
      registerH "u1" ⟨[], []⟩ (some "alice") (some "p1") none =
        (⟨201, .msg "User registered successfully."⟩,
         ⟨[("u1", ⟨"alice", "p1", "user"⟩)], []⟩) ∧
      registerH "u2" ⟨[("u1", ⟨"alice", "p1", "user"⟩)], []⟩
          (some "alice") (some "p2") none =
        (⟨409, .msg "Username already exists."⟩,
         ⟨[("u1", ⟨"alice", "p1", "user"⟩)], []⟩) :=
  ⟨by decide, by decide, by decide, by decide,
   (register_twice_201_then_409 "u1" "u2" ⟨[], []⟩ "alice" "p1" "p2" none none
      (by decide) (by decide) (by decide) (by decide)).1,
   (register_twice_201_then_409 "u1" "u2" ⟨[], []⟩ "alice" "p1" "p2" none none
      (by decide) (by decide) (by decide) (by decide)).2⟩

theorem find_user_match (users : List (String × UserRec)) (id : String) (rec : UserRec)
    (hmem : (id, rec) ∈ users)
    (huniq : ∀ e ∈ users, e.2.username = rec.username → e = (id, rec)) :
    users.find? (fun e => e.2.username = rec.username && e.2.password = rec.password) =
      some (id, rec) := by
  induction users with
  | nil => cases hmem
  | cons x xs ih =>
    by_cases hpx :
        (decide (x.2.username = rec.username) && decide (x.2.password = rec.password)) = true
    · have hx : x = (id, rec) := by
        have hu : x.2.username = rec.username := by
          simp only [Bool.and_eq_true, decide_eq_true_eq] at hpx
          exact hpx.1
        exact huniq x (by simp) hu
      simp [List.find?_cons, hpx, hx]
    · have hxne : ¬(x = (id, rec)) := by
        intro hx
        apply hpx
        rw [hx]
        simp
      have hmem2 : (id, rec) ∈ xs := by
        rcases List.mem_cons.mp hmem with h | h
        · exact absurd h.symm hxne
        · exact h
      have huniq2 : ∀ e ∈ xs, e.2.username = rec.username → e = (id, rec) :=
        fun e he => huniq e (by simp [he])
      have hb : (decide (x.2.username = rec.username) &&
          decide (x.2.password = rec.password)) = false := by
        simpa using hpx
      rw [List.find?_cons, hb]
      exact ih hmem2 huniq2

theorem find_user_none (users : List (String × UserRec)) (id : String) (rec : UserRec)
    (huniq : ∀ e ∈ users, e.2.username = rec.username → e = (id, rec))
    (pw : String) (hpw : ¬(pw = rec.password)) :
    users.find? (fun e => e.2.username = rec.username && e.2.password = pw) = none := by
  rw [List.find?_eq_none]
  intro e he
  simp only [Bool.and_eq_true, decide_eq_true_eq, not_and]
  intro hu
  rw [huniq e he hu]
  exact fun h => hpw h.symm

theorem login_wrong_password_counterexample :
    ("u1", (⟨"a", "p", "user"⟩ : UserRec)) ∈
        (⟨[("u1", ⟨"a", "p", "user"⟩), ("u2", ⟨"a", "q", "user"⟩)], []⟩ : Store).users ∧
      ¬(("q" : String) = "p") ∧
      (loginH ⟨[("u1", ⟨"a", "p", "user"⟩), ("u2", ⟨"a", "q", "user"⟩)], []⟩
          (some "a") (some "q")).1.status = 200 := by
  decide

/-- C7 (amended): in a store where exactly one user document carries the
given username — the situation registration maintains — login with the
matching username/password pair is answered 200 with a token for that
document, and login with that username and any non-matching password is
answered 401 with no token. -/
theorem login_unique_username (store : Store) (id : String) (rec : UserRec)
    (hmem : (id, rec) ∈ store.users)
    (huniq : ∀ e ∈ store.users, e.2.username = rec.username → e = (id, rec)) :
    loginH store (some rec.username) (some rec.password) =
        (⟨200, .loginOk "Login successful" (createToken ⟨id, rec.username, rec.role⟩)⟩,
         store) ∧
      ∀ pw, ¬(pw = rec.password) →
        loginH store (some rec.username) (some pw) =
          (⟨401, .msg "Invalid credentials"⟩, store) := by
  constructor
  · unfold loginH
    dsimp only
    rw [find_user_match store.users id rec hmem huniq]
  · intro pw hpw
    unfold loginH
    dsimp only
    rw [find_user_none store.users id rec huniq pw hpw]

theorem login_unique_username_witness :
    ("u1", (⟨"a", "p", "user"⟩ : UserRec)) ∈
        (⟨[("u1", ⟨"a", "p", "user"⟩)], []⟩ : Store).users ∧
      (∀ e ∈ (⟨[("u1", ⟨"a", "p", "user"⟩)], []⟩ : Store).users,
        e.2.username = "a" → e = ("u1", ⟨"a", "p", "user"⟩)) ∧
      loginH ⟨[("u1", ⟨"a", "p", "user"⟩)], []⟩ (some "a") (some "p") =
        (⟨200, .loginOk "Login successful" (createToken ⟨"u1", "a", "user"⟩)⟩,
         ⟨[("u1", ⟨"a", "p", "user"⟩)], []⟩) ∧
      loginH ⟨[("u1", ⟨"a", "p", "user"⟩)], []⟩ (some "a") (some "wrong") =
        (⟨401, .msg "Invalid credentials"⟩, ⟨[("u1", ⟨"a", "p", "user"⟩)], []⟩) :=
  ⟨by decide, by decide,
   (login_unique_username ⟨[("u1", ⟨"a", "p", "user"⟩)], []⟩ "u1" ⟨"a", "p", "user"⟩
      (by decide) (by decide)).1,
   (login_unique_username ⟨[("u1", ⟨"a", "p", "user"⟩)], []⟩ "u1" ⟨"a", "p", "user"⟩
      (by decide) (by decide)).2 "wrong" (by decide)⟩

theorem lookup_filter_ne (users : List (String × UserRec)) (uid : String) :
    (users.filter (fun e => !(e.1 = uid))).lookup uid = none := by
  induction users with
  | nil => rfl
  | cons e es ih =>
    obtain ⟨k, v⟩ := e
    by_cases hk : k = uid
    · simp [List.filter_cons, hk, ih]
    · have hbeq : (uid == k) = false := by
        simp only [beq_eq_false_iff_ne, ne_eq]
        exact fun h => hk h.symm
      simp [List.filter_cons, hk, List.lookup, hbeq, ih]

theorem delete_user_cascades (newId now : String) (store : Store) (auth : Option String)
    (p : TokenPayload) (uid : String)
    (hv : verifyToken store auth = .ok p) (hadm : checkAdmin p = true) :
    handle newId now store auth (.deleteUser uid) =
        (⟨200, .msg "User and associated goals deleted successfully."⟩,
         removeUserDoc (removeUserGoals store uid) uid) ∧
      (removeUserDoc (removeUserGoals store uid) uid).users.lookup uid = none ∧
      ∀ g ∈ (removeUserDoc (removeUserGoals store uid) uid).goals,
        ¬(g.2.userId = uid) := by
  refine ⟨?_, ?_, ?_⟩
  · simp [handle, withAuth, hv, withAdmin, hadm, deleteUserH]
  · exact lookup_filter_ne (removeUserGoals store uid).users uid
  · intro g hg
    have hmf := List.mem_filter.mp hg
    simpa using hmf.2

/-- Witness for the C8 theorem: an admin deleting `u2`, who owns `g2`. -/
theorem delete_user_cascades_witness :
    verifyToken
        ⟨[("ua", ⟨"root", "pw", "admin"⟩), ("u2", ⟨"bob", "pw2", "user"⟩)],
         [("g2", ⟨"House", 500, 50, "Home", "u2", "t0", "t0"⟩)]⟩
        (some ("Bearer " ++ createToken ⟨"ua", "root", "admin"⟩)) =
      .ok ⟨"ua", "root", "admin"⟩ ∧
      checkAdmin ⟨"ua", "root", "admin"⟩ = true ∧
      handle "n1" "t1"
          ⟨[("ua", ⟨"root", "pw", "admin"⟩), ("u2", ⟨"bob", "pw2", "user"⟩)],
           [("g2", ⟨"House", 500, 50, "Home", "u2", "t0", "t0"⟩)]⟩
          (some ("Bearer " ++ createToken ⟨"ua", "root", "admin"⟩)) (.deleteUser "u2") =
        (⟨200, .msg "User and associated goals deleted successfully."⟩,
         removeUserDoc (removeUserGoals
           ⟨[("ua", ⟨"root", "pw", "admin"⟩), ("u2", ⟨"bob", "pw2", "user"⟩)],
            [("g2", ⟨"House", 500, 50, "Home", "u2", "t0", "t0"⟩)]⟩ "u2") "u2") :=
  ⟨rfl, rfl,
   (delete_user_cascades "n1" "t1"
      ⟨[("ua", ⟨"root", "pw", "admin"⟩), ("u2", ⟨"bob", "pw2", "user"⟩)],
       [("g2", ⟨"House", 500, 50, "Home", "u2", "t0", "t0"⟩)]⟩
      (some ("Bearer " ++ createToken ⟨"ua", "root", "admin"⟩))
      ⟨"ua", "root", "admin"⟩ "u2" rfl rfl).1⟩

/-- C9: an authenticated POST `/goals` whose body has any falsy field —
a missing field, an empty `name` or `category`, or `0` for `targetAmount`
or `savedAmount` — is answered 400 and creates nothing; in particular a
goal with `savedAmount = 0` cannot be created through this endpoint. -/
theorem create_goal_falsy_400 (newId now : String) (store : Store) (auth : Option String)
    (p : TokenPayload) (hv : verifyToken store auth = .ok p)
    (n : Option String) (ta sa : Option Int) (c : Option String)
    (hfalsy : truthyS n = false ∨ truthyN ta = false ∨ truthyN sa = false ∨
      truthyS c = false) :
    handle newId now store auth (.createGoal n ta sa c) =
      (⟨400, .msg "All goal fields are required."⟩, store) := by
  simp only [handle, withAuth, hv]
  unfold createGoalH
  rcases hfalsy with h | h | h | h <;> simp [h]

/-- Witness for the C9 theorem: a body with `savedAmount = 0`. -/
theorem create_goal_falsy_400_witness :
    verifyToken ⟨[("u1", ⟨"alice", "pw1", "user"⟩)], []⟩
        (some ("Bearer " ++ createToken ⟨"u1", "alice", "user"⟩)) =
      .ok ⟨"u1", "alice", "user"⟩ ∧
      truthyN (some 0) = false ∧
      handle "g9" "t9" ⟨[("u1", ⟨"alice", "pw1", "user"⟩)], []⟩
          (some ("Bearer " ++ createToken ⟨"u1", "alice", "user"⟩))
          (.createGoal (some "Trip") (some 100) (some 0) (some "Travel")) =
        (⟨400, .msg "All goal fields are required."⟩,
         ⟨[("u1", ⟨"alice", "pw1", "user"⟩)], []⟩) :=
  ⟨rfl, rfl,
   create_goal_falsy_400 "g9" "t9" ⟨[("u1", ⟨"alice", "pw1", "user"⟩)], []⟩
     (some ("Bearer " ++ createToken ⟨"u1", "alice", "user"⟩))
     ⟨"u1", "alice", "user"⟩ rfl (some "Trip") (some 100) (some 0) (some "Travel")
     (Or.inr (Or.inr (Or.inl rfl)))⟩

theorem lookup_map_set (l : List (String × GoalRec)) (gid : String) (g g2 : GoalRec)
    (hg : l.lookup gid = some g) :
    (l.map (fun e => if e.1 = gid then (e.1, g2) else e)).lookup gid = some g2 := by
  induction l with
  | nil => simp at hg
  | cons e es ih =>
    obtain ⟨k, v⟩ := e
    by_cases hk : k = gid
    · subst hk
      simp only [List.map_cons, if_true]
      simp [List.lookup]
    · have hbeq : (gid == k) = false := by
        simp only [beq_eq_false_iff_ne, ne_eq]
        exact fun h => hk h.symm
      simp only [List.lookup, hbeq] at hg
      simp only [List.map_cons, if_neg hk]
      simp only [List.lookup, hbeq]
      exact ih hg


/-- C10: a successful owner update of a goal writes exactly `name`,
`targetAmount`, `savedAmount`, `category` and `updatedAt` into the stored
document; its `userId` and `createdAt` fields are carried over unchanged
from the previous record. -/
theorem update_goal_frame (newId now : String) (store : Store) (auth : Option String)
    (p : TokenPayload) (hv : verifyToken store auth = .ok p)
    (gid : String) (g : GoalRec) (hg : store.goals.lookup gid = some g)
    (hown : g.userId = p.id) (n : String) (ta sa : Int) (c : String) :
    handle newId now store auth (.updateGoal gid (some n) (some ta) (some sa) (some c)) =
        (⟨200, .msg "Goal updated successfully."⟩,
         { store with goals := store.goals.map (fun e =>
             if e.1 = gid then (e.1, ⟨n, ta, sa, c, g.userId, g.createdAt, now⟩) else e) }) ∧
      (handle newId now store auth
          (.updateGoal gid (some n) (some ta) (some sa) (some c))).2.goals.lookup gid =
        some ⟨n, ta, sa, c, g.userId, g.createdAt, now⟩ := by
  have h1 : handle newId now store auth
      (.updateGoal gid (some n) (some ta) (some sa) (some c)) =
      (⟨200, .msg "Goal updated successfully."⟩,
       { store with goals := store.goals.map (fun e =>
           if e.1 = gid then (e.1, ⟨n, ta, sa, c, g.userId, g.createdAt, now⟩) else e) }) := by
    simp only [handle, withAuth, hv]
    unfold updateGoalH
    rw [hg]
    dsimp only
    simp [hown]
  refine ⟨h1, ?_⟩
  rw [h1]
  exact lookup_map_set store.goals gid g _ hg

/-- Witness for the C10 theorem: `u1` updating their own goal `g1`. -/
theorem update_goal_frame_witness :
    verifyToken
        ⟨[("u1", ⟨"alice", "pw1", "user"⟩)],
         [("g1", ⟨"Car", 100, 10, "Vehicle", "u1", "t0", "t0"⟩)]⟩
        (some ("Bearer " ++ createToken ⟨"u1", "alice", "user"⟩)) =
      .ok ⟨"u1", "alice", "user"⟩ ∧
      (⟨[("u1", ⟨"alice", "pw1", "user"⟩)],
        [("g1", ⟨"Car", 100, 10, "Vehicle", "u1", "t0", "t0"⟩)]⟩ : Store).goals.lookup
        "g1" = some ⟨"Car", 100, 10, "Vehicle", "u1", "t0", "t0"⟩ ∧
      (handle "n1" "t2"
          ⟨[("u1", ⟨"alice", "pw1", "user"⟩)],
           [("g1", ⟨"Car", 100, 10, "Vehicle", "u1", "t0", "t0"⟩)]⟩
          (some ("Bearer " ++ createToken ⟨"u1", "alice", "user"⟩))
          (.updateGoal "g1" (some "Van") (some 200) (some 20) (some "Auto"))).2.goals.lookup
        "g1" = some ⟨"Van", 200, 20, "Auto", "u1", "t0", "t2"⟩ :=
  ⟨rfl, rfl,
   (update_goal_frame "n1" "t2"
      ⟨[("u1", ⟨"alice", "pw1", "user"⟩)],
       [("g1", ⟨"Car", 100, 10, "Vehicle", "u1", "t0", "t0"⟩)]⟩
      (some ("Bearer " ++ createToken ⟨"u1", "alice", "user"⟩))
      ⟨"u1", "alice", "user"⟩ rfl "g1" ⟨"Car", 100, 10, "Vehicle", "u1", "t0", "t0"⟩
      rfl rfl "Van" 200 20 "Auto").2⟩

end SGP
